import Mathlib

/-!
Verification of the anti-spam escalation engine (src/index.ts, class AntiSpamClient).

The engine keeps an in-memory cache of recent message fingerprints and four
per-author sanction lists, and, per incoming message event, runs an admission
filter, appends the message to the cache, computes window- and duplicate-counts,
and walks an ordered tier cascade (ban, mute, kick, warn).

Shallow embedding notes:
* Timestamps are naturals (milliseconds).  The source compares
  `m.sentTimestamp > t - interval` on JS numbers; we write the equivalent
  `t < m.sentTimestamp + interval` to avoid truncated natural subtraction.
* `Date.now()` at processing time is passed explicitly as a `now` argument.
* Discord platform objects are abstracted to the fields the engine reads:
  ids, the bot flag, the owner id, role ids, permission names, and the
  three permission outcomes (`bannable`, `kickable`, `mutable`) that the
  platform reports for the member.  `message.client.user.id` is carried on
  the event as `clientUserId`.
* The async sanction helpers are called fire-and-forget in the source; all of
  their state updates and event emissions do happen (eventually), so the model
  executes their bodies sequentially.  External platform effects that do not
  touch engine state (sending chat messages, mod-log posts, the IP-regex
  delete) are not part of the modelled state; the externally requested
  deletions of cached spam messages (clearSpamMessages) are recorded in the
  `deleted` output so that the `removeMessages` gate stays observable.
-/

set_option maxHeartbeats 1600000

namespace AntiSpam

/-- One cached message fingerprint (interface `CachedMessage`, src/index.ts:129-136). -/
structure CachedMessage where
  messageID : String
  guildID : String
  authorID : String
  channelID : String
  content : String
  sentTimestamp : Nat
deriving DecidableEq, Repr

/-- The fields of a Discord guild that the engine reads. -/
structure Guild where
  id : String
  ownerId : String
deriving DecidableEq, Repr

/-- The fields of a message author that the engine reads. -/
structure Author where
  id : String
  bot : Bool
deriving DecidableEq, Repr

/-- The fields of a guild member that the engine reads: its id, role ids,
permission names, and the three platform permission outcomes consulted by the
sanction helpers (`member.bannable`, `member.kickable`, and the
`userCanBeMuted` computation of `muteUser`). -/
structure Member where
  id : String
  roleIds : List String
  permissions : List String
  bannable : Bool
  kickable : Bool
  mutable : Bool
deriving DecidableEq, Repr

/-- An inbound message event (the `Discord.Message` fields read by
`AntiSpamClient.message`).  `clientUserId` models `message.client.user.id`. -/
structure MessageEvent where
  id : String
  guild : Option Guild
  author : Author
  member : Member
  channelId : String
  content : String
  createdTimestamp : Nat
  clientUserId : String
deriving DecidableEq, Repr

/-- An ignore configuration entry is either a static id list or a predicate
(the source accepts `Discord.Snowflake[] | IgnoreXFunction`). -/
inductive IgnoreList (α : Type) where
  | ids (l : List String)
  | pred (f : α → Bool)

/-- The engine options used by the modelled operations
(`AntiSpamClient.options`, src/index.ts:227-320).  Formatting, embed and
logging options have no effect on engine state and are omitted. -/
structure Options where
  warnThreshold : Nat
  muteThreshold : Nat
  kickThreshold : Nat
  banThreshold : Nat
  maxInterval : Nat
  maxDuplicatesInterval : Nat
  maxDuplicatesWarn : Nat
  maxDuplicatesMute : Nat
  maxDuplicatesKick : Nat
  maxDuplicatesBan : Nat
  ignoredMembers : IgnoreList Member
  ignoredRoles : IgnoreList String
  ignoredGuilds : IgnoreList Guild
  ignoredChannels : IgnoreList String
  ignoredPermissions : List String
  ignoreBots : Bool
  warnEnabled : Bool
  ipwarnEnabled : Bool
  kickEnabled : Bool
  muteEnabled : Bool
  banEnabled : Bool
  removeMessages : Bool
  debug : Bool

/-- The constructor defaults for the modelled option fields
(src/index.ts:228-319). -/
def defaultOptions : Options where
  warnThreshold := 3
  muteThreshold := 4
  kickThreshold := 5
  banThreshold := 7
  maxInterval := 2000
  maxDuplicatesInterval := 2000
  maxDuplicatesWarn := 7
  maxDuplicatesMute := 9
  maxDuplicatesKick := 10
  maxDuplicatesBan := 11
  ignoredMembers := .ids []
  ignoredRoles := .ids []
  ignoredGuilds := .ids []
  ignoredChannels := .ids []
  ignoredPermissions := []
  ignoreBots := true
  warnEnabled := true
  ipwarnEnabled := false
  kickEnabled := true
  muteEnabled := true
  banEnabled := true
  removeMessages := true
  debug := false

/-- The engine cache (`AntiSpamClient.cache`, src/index.ts:212-217, 326-331).
Note that the class stores no muted-users list (the `AntiSpamCache` interface
mentions one, but the actual field type and the constructor omit it). -/
structure Cache where
  messages : List CachedMessage
  warnedUsers : List String
  kickedUsers : List String
  bannedUsers : List String
deriving DecidableEq, Repr

/-- The empty cache, as initialised by the constructor. -/
def emptyCache : Cache where
  messages := []
  warnedUsers := []
  kickedUsers := []
  bannedUsers := []

/-- `AntiSpamClient.reset` (src/index.ts:1284-1291) replaces the cache with a
fresh empty one. -/
def resetCache (_c : Cache) : Cache := emptyCache

/-- The four observer notifications the engine can emit for one sanction
(`warnAdd`, `muteAdd`, `kickAdd`, `banAdd`), each carrying the affected member,
channel and triggering message. -/
inductive EmittedEvent where
  | warnAdd (memberId channelId messageId : String)
  | muteAdd (memberId channelId messageId : String)
  | kickAdd (memberId channelId messageId : String)
  | banAdd (memberId channelId messageId : String)
deriving DecidableEq, Repr

/-- Result of one sanction helper: its boolean return value, the updated
cache, the emitted observer events, and the cached records whose platform
deletion was requested via `clearSpamMessages`. -/
structure SanctionResult where
  ok : Bool
  cache : Cache
  emitted : List EmittedEvent
  deleted : List CachedMessage
deriving DecidableEq, Repr

/-- Result of one `message` call: the returned boolean, the updated cache, the
emitted observer events, and the records whose deletion was requested. -/
structure MessageResult where
  triggered : Bool
  cache : Cache
  emitted : List EmittedEvent
  deleted : List CachedMessage
deriving DecidableEq, Repr

/-- Model of `AntiSpamClient.banUser` (src/index.ts:779-871): request deletion
of the spam messages if `removeMessages` is set, unconditionally purge the
author from the message cache, push the author onto `bannedUsers`, then fail
without emitting if the member is not bannable, otherwise ban and emit
`banAdd`. -/
def banUser (opts : Options) (ev : MessageEvent) (spamMessages : List CachedMessage)
    (c : Cache) : SanctionResult :=
  let deleted := if opts.removeMessages then spamMessages else []
  let c1 : Cache := { c with messages := c.messages.filter (fun u => u.authorID != ev.author.id) }
  let c2 : Cache := { c1 with bannedUsers := c1.bannedUsers ++ [ev.author.id] }
  if !ev.member.bannable then
    { ok := false, cache := c2, emitted := [], deleted := deleted }
  else
    { ok := true, cache := c2
      emitted := [EmittedEvent.banAdd ev.member.id ev.channelId ev.id], deleted := deleted }

/-- Model of `AntiSpamClient.muteUser` (src/index.ts:881-946): request deletion
of the spam messages if `removeMessages` is set, unconditionally purge the
author from the message cache, then fail without emitting if the member cannot
be timed out, otherwise time out and emit `muteAdd`.  No muted-users state is
recorded. -/
def muteUser (opts : Options) (ev : MessageEvent) (spamMessages : List CachedMessage)
    (c : Cache) : SanctionResult :=
  let deleted := if opts.removeMessages then spamMessages else []
  let c1 : Cache := { c with messages := c.messages.filter (fun u => u.authorID != ev.author.id) }
  if !ev.member.mutable then
    { ok := false, cache := c1, emitted := [], deleted := deleted }
  else
    { ok := true, cache := c1
      emitted := [EmittedEvent.muteAdd ev.member.id ev.channelId ev.id], deleted := deleted }

/-- Model of `AntiSpamClient.kickUser` (src/index.ts:956-1015): request
deletion of the spam messages if `removeMessages` is set, unconditionally purge
the author from the message cache, push the author onto `kickedUsers`, then
fail without emitting if the member is not kickable, otherwise kick and emit
`kickAdd`. -/
def kickUser (opts : Options) (ev : MessageEvent) (spamMessages : List CachedMessage)
    (c : Cache) : SanctionResult :=
  let deleted := if opts.removeMessages then spamMessages else []
  let c1 : Cache := { c with messages := c.messages.filter (fun u => u.authorID != ev.author.id) }
  let c2 : Cache := { c1 with kickedUsers := c1.kickedUsers ++ [ev.author.id] }
  if !ev.member.kickable then
    { ok := false, cache := c2, emitted := [], deleted := deleted }
  else
    { ok := true, cache := c2
      emitted := [EmittedEvent.kickAdd ev.member.id ev.channelId ev.id], deleted := deleted }

/-- Model of `AntiSpamClient.warnUser` (src/index.ts:1025-1038): request
deletion of the spam messages if `removeMessages` is set, push the author onto
`warnedUsers` and emit `warnAdd`.  Unlike the other three helpers, the author
is NOT purged from the message cache, and there is no permission check. -/
def warnUser (opts : Options) (ev : MessageEvent) (spamMessages : List CachedMessage)
    (c : Cache) : SanctionResult :=
  let deleted := if opts.removeMessages then spamMessages else []
  let c1 : Cache := { c with warnedUsers := c.warnedUsers ++ [ev.author.id] }
  { ok := true, cache := c1
    emitted := [EmittedEvent.warnAdd ev.member.id ev.channelId ev.id], deleted := deleted }

/-- `isMemberIgnored` (src/index.ts:1061-1068).  The member object is modelled
as always present on the event (the source falls back to a fetch). -/
def isMemberIgnoredB (opts : Options) (ev : MessageEvent) : Bool :=
  match opts.ignoredMembers with
  | .pred f => f ev.member
  | .ids l => l.contains ev.author.id

/-- `isGuildIgnored` (src/index.ts:1070-1074, also used by `userleave`). -/
def isGuildIgnoredB (opts : Options) (g : Guild) : Bool :=
  match opts.ignoredGuilds with
  | .pred f => f g
  | .ids l => l.contains g.id

/-- `isChannelIgnored` (src/index.ts:1076-1080); channels abstracted to ids. -/
def isChannelIgnoredB (opts : Options) (ev : MessageEvent) : Bool :=
  match opts.ignoredChannels with
  | .pred f => f ev.channelId
  | .ids l => l.contains ev.channelId

/-- `memberHasIgnoredRoles` (src/index.ts:1085-1103); roles abstracted to ids. -/
def hasIgnoredRolesB (opts : Options) (m : Member) : Bool :=
  match opts.ignoredRoles with
  | .pred f => m.roleIds.any f
  | .ids l => l.any (fun rid => m.roleIds.contains rid)

/-- The admission filter of `message` (src/index.ts:1052-1118) as one
disjunction: the event is dropped when any early-return condition holds.  The
missing-guild case is handled separately in `message`. -/
def ignoredBy (opts : Options) (g : Guild) (ev : MessageEvent) : Bool :=
  (ev.author.id == ev.clientUserId) ||
  (g.ownerId == ev.author.id && !opts.debug) ||
  (opts.ignoreBots && ev.author.bot) ||
  isMemberIgnoredB opts ev ||
  isGuildIgnoredB opts g ||
  isChannelIgnoredB opts ev ||
  hasIgnoredRolesB opts ev.member ||
  opts.ignoredPermissions.any (fun p => ev.member.permissions.contains p)

/-- The record appended to the cache for an admitted event
(src/index.ts:1120-1127). -/
def currentRecordOf (g : Guild) (ev : MessageEvent) : CachedMessage where
  messageID := ev.id
  guildID := g.id
  authorID := ev.author.id
  channelID := ev.channelId
  content := ev.content
  sentTimestamp := ev.createdTimestamp

/-- `cachedMessages` (src/index.ts:1130-1132): the author's records in this
guild, in cache order. -/
def cachedFor (msgs : List CachedMessage) (authorId guildId : String) : List CachedMessage :=
  msgs.filter (fun m => m.authorID == authorId && m.guildID == guildId)

/-- `duplicateMatches` (src/index.ts:1134-1139): records with identical content
inside the duplicate window anchored at the current message timestamp. -/
def dupMatchesOf (opts : Options) (cachedMessages : List CachedMessage)
    (content : String) (sentTimestamp : Nat) : List CachedMessage :=
  cachedMessages.filter (fun m =>
    m.content == content && decide (sentTimestamp < m.sentTimestamp + opts.maxDuplicatesInterval))

/-- `spamMatches` (src/index.ts:1174-1176): records inside the window anchored
at `Date.now()`. -/
def spamMatchesOf (opts : Options) (cachedMessages : List CachedMessage)
    (now : Nat) : List CachedMessage :=
  cachedMessages.filter (fun m => decide (now < m.sentTimestamp + opts.maxInterval))

/-- Stable insertion of a record into a list sorted by `sentTimestamp`
descending; among equal timestamps the inserted (originally earlier) record
stays first, matching the stable JS `Array.prototype.sort` with comparator
`(a, b) => b.sentTimestamp - a.sentTimestamp`. -/
def insertByTimestampDesc (m : CachedMessage) : List CachedMessage → List CachedMessage
  | [] => [m]
  | x :: xs =>
    if m.sentTimestamp < x.sentTimestamp then x :: insertByTimestampDesc m xs
    else m :: x :: xs

/-- The stable sort by `sentTimestamp` descending used at src/index.ts:1166. -/
def sortByTimestampDesc (l : List CachedMessage) : List CachedMessage :=
  l.foldr insertByTimestampDesc []

/-- One step of the `rowBroken` walk of src/index.ts:1164-1171: the collected
prefix together with the `rowBroken` flag; once the flag is set every later
element is ignored. -/
def collectStep (ref : String) (acc : List CachedMessage × Bool)
    (element : CachedMessage) : List CachedMessage × Bool :=
  if acc.2 then acc
  else if element.content != ref then (acc.1, true)
  else (acc.1 ++ [element], false)

/-- The `rowBroken` walk of src/index.ts:1164-1171: fold over the sorted list,
collecting records while their content equals `ref`, and ignoring everything
after the first record whose content differs. -/
def collectRun (ref : String) (l : List CachedMessage) : List CachedMessage :=
  (l.foldl (collectStep ref) (([] : List CachedMessage), false)).1

/-- `spamOtherDuplicates` (src/index.ts:1162-1172): empty when there are no
duplicate matches; otherwise the `rowBroken` walk over the author's cached
messages sorted by `sentTimestamp` descending, keyed on the content of the
first duplicate match. -/
def spamOtherDuplicatesOf (cachedMessages duplicateMatches : List CachedMessage) :
    List CachedMessage :=
  match duplicateMatches with
  | [] => []
  | d :: _ => collectRun d.content (sortByTimestampDesc cachedMessages)

/-- The ban tier of the cascade (src/index.ts:1180-1196): gated by
`banEnabled`, the recorded `bannedUsers` entry, and the threaded `sanctioned`
flag; the count check runs before the duplicate check.  Returns the updated
cache, the emitted events, the requested deletions, and the new `sanctioned`
flag. -/
def banStep (opts : Options) (ev : MessageEvent)
    (spamMatches duplicateMatches spamOtherDuplicates : List CachedMessage)
    (c : Cache) (sanctioned : Bool) :
    Cache × List EmittedEvent × List CachedMessage × Bool :=
  let userCanBeBanned :=
    opts.banEnabled && !(c.bannedUsers.contains ev.author.id) && !sanctioned
  if userCanBeBanned && decide (spamMatches.length ≥ opts.banThreshold) then
    let r := banUser opts ev spamMatches c
    (r.cache, r.emitted, r.deleted, true)
  else if userCanBeBanned && decide (duplicateMatches.length ≥ opts.maxDuplicatesBan) then
    let r := banUser opts ev (duplicateMatches ++ spamOtherDuplicates) c
    (r.cache, r.emitted, r.deleted, true)
  else (c, [], [], sanctioned)

/-- The mute tier of the cascade (src/index.ts:1198-1211): gated only by
`muteEnabled` and the threaded `sanctioned` flag — there is no recorded
muted-users entry. -/
def muteStep (opts : Options) (ev : MessageEvent)
    (spamMatches duplicateMatches spamOtherDuplicates : List CachedMessage)
    (c : Cache) (sanctioned : Bool) :
    Cache × List EmittedEvent × List CachedMessage × Bool :=
  let userCanBeMuted := opts.muteEnabled && !sanctioned
  if userCanBeMuted && decide (spamMatches.length ≥ opts.muteThreshold) then
    let r := muteUser opts ev spamMatches c
    (r.cache, r.emitted, r.deleted, true)
  else if userCanBeMuted && decide (duplicateMatches.length ≥ opts.maxDuplicatesMute) then
    let r := muteUser opts ev (duplicateMatches ++ spamOtherDuplicates) c
    (r.cache, r.emitted, r.deleted, true)
  else (c, [], [], sanctioned)

/-- The kick tier of the cascade (src/index.ts:1213-1229): gated by
`kickEnabled`, the recorded `kickedUsers` entry, and the threaded `sanctioned`
flag. -/
def kickStep (opts : Options) (ev : MessageEvent)
    (spamMatches duplicateMatches spamOtherDuplicates : List CachedMessage)
    (c : Cache) (sanctioned : Bool) :
    Cache × List EmittedEvent × List CachedMessage × Bool :=
  let userCanBeKicked :=
    opts.kickEnabled && !(c.kickedUsers.contains ev.author.id) && !sanctioned
  if userCanBeKicked && decide (spamMatches.length ≥ opts.kickThreshold) then
    let r := kickUser opts ev spamMatches c
    (r.cache, r.emitted, r.deleted, true)
  else if userCanBeKicked && decide (duplicateMatches.length ≥ opts.maxDuplicatesKick) then
    let r := kickUser opts ev (duplicateMatches ++ spamOtherDuplicates) c
    (r.cache, r.emitted, r.deleted, true)
  else (c, [], [], sanctioned)

/-- The tier cascade of `message` (src/index.ts:1178-1249), with the
`sanctioned` flag and the live cache threaded exactly as in the source.  The
warn tier mirrors the source asymmetry: the count branch returns `true`
directly, the duplicate branch falls through to the final `return sanctioned`. -/
def evalTiers (opts : Options) (ev : MessageEvent) (c1 : Cache)
    (spamMatches duplicateMatches spamOtherDuplicates : List CachedMessage) :
    MessageResult :=
  let step1 :=
    banStep opts ev spamMatches duplicateMatches spamOtherDuplicates c1 false
  let step2 :=
    muteStep opts ev spamMatches duplicateMatches spamOtherDuplicates step1.1
      step1.2.2.2
  let step3 :=
    kickStep opts ev spamMatches duplicateMatches spamOtherDuplicates step2.1
      step2.2.2.2
  let c4 := step3.1
  let sanctioned3 := step3.2.2.2
  let userCanBeWarned :=
    opts.warnEnabled && !(c4.warnedUsers.contains ev.author.id) && !sanctioned3
  if userCanBeWarned && decide (spamMatches.length ≥ opts.warnThreshold) then
    let r := warnUser opts ev spamMatches c4
    { triggered := true, cache := r.cache
      emitted := step1.2.1 ++ step2.2.1 ++ step3.2.1 ++ r.emitted
      deleted := step1.2.2.1 ++ step2.2.2.1 ++ step3.2.2.1 ++ r.deleted }
  else if userCanBeWarned && decide (duplicateMatches.length ≥ opts.maxDuplicatesWarn) then
    let r := warnUser opts ev (duplicateMatches ++ spamOtherDuplicates) c4
    { triggered := true, cache := r.cache
      emitted := step1.2.1 ++ step2.2.1 ++ step3.2.1 ++ r.emitted
      deleted := step1.2.2.1 ++ step2.2.2.1 ++ step3.2.2.1 ++ r.deleted }
  else
    { triggered := sanctioned3, cache := c4
      emitted := step1.2.1 ++ step2.2.1 ++ step3.2.1
      deleted := step1.2.2.1 ++ step2.2.2.1 ++ step3.2.2.1 }

/-- The body of `message` after the admission filter (src/index.ts:1120-1249):
append the current record, compute the author's cached messages and duplicate
matches, then — only when `ipwarnEnabled` is true — compute the duplicate run
and window matches and run the tier cascade.  When `ipwarnEnabled` is false
the source returns `false` right here (the `else` at src/index.ts:1154-1156);
the IP-regex branch itself only performs platform calls (delete / channel
send) that do not touch engine state. -/
def processAdmitted (opts : Options) (now : Nat) (c : Cache) (g : Guild)
    (ev : MessageEvent) : MessageResult :=
  let currentMessage := currentRecordOf g ev
  let c1 : Cache := { c with messages := c.messages ++ [currentMessage] }
  let cachedMessages := cachedFor c1.messages ev.author.id g.id
  let duplicateMatches :=
    dupMatchesOf opts cachedMessages ev.content currentMessage.sentTimestamp
  if opts.ipwarnEnabled then
    let spamOtherDuplicates := spamOtherDuplicatesOf cachedMessages duplicateMatches
    let spamMatches := spamMatchesOf opts cachedMessages now
    evalTiers opts ev c1 spamMatches duplicateMatches spamOtherDuplicates
  else
    { triggered := false, cache := c1, emitted := [], deleted := [] }

/-- Model of `AntiSpamClient.message` (src/index.ts:1049-1250). -/
def message (opts : Options) (now : Nat) (c : Cache) (ev : MessageEvent) :
    MessageResult :=
  match ev.guild with
  | none => { triggered := false, cache := c, emitted := [], deleted := [] }
  | some g =>
    if ev.author.id == ev.clientUserId then
      { triggered := false, cache := c, emitted := [], deleted := [] }
    else if g.ownerId == ev.author.id && !opts.debug then
      { triggered := false, cache := c, emitted := [], deleted := [] }
    else if opts.ignoreBots && ev.author.bot then
      { triggered := false, cache := c, emitted := [], deleted := [] }
    else if isMemberIgnoredB opts ev then
      { triggered := false, cache := c, emitted := [], deleted := [] }
    else if isGuildIgnoredB opts g then
      { triggered := false, cache := c, emitted := [], deleted := [] }
    else if isChannelIgnoredB opts ev then
      { triggered := false, cache := c, emitted := [], deleted := [] }
    else if hasIgnoredRolesB opts ev.member then
      { triggered := false, cache := c, emitted := [], deleted := [] }
    else if opts.ignoredPermissions.any (fun p => ev.member.permissions.contains p) then
      { triggered := false, cache := c, emitted := [], deleted := [] }
    else
      processAdmitted opts now c g ev

/-- The four sanction tiers, in severity order (spec §4.3). -/
inductive Tier where
  | ban
  | mute
  | kick
  | warn
deriving DecidableEq, Repr

/-- Specification-side reference (spec §4.3/§4.4, for the refinement claims):
a tier qualifies for an event when it is enabled, not gated by a previously
recorded same-tier sanction (mute is never gated), and its window count or
duplicate count crosses the tier's threshold. -/
def tierQualifies (opts : Options) (c : Cache) (aid : String) (wc dc : Nat) :
    Tier → Bool
  | .ban =>
    opts.banEnabled && !(c.bannedUsers.contains aid) &&
      (decide (wc ≥ opts.banThreshold) || decide (dc ≥ opts.maxDuplicatesBan))
  | .mute =>
    opts.muteEnabled &&
      (decide (wc ≥ opts.muteThreshold) || decide (dc ≥ opts.maxDuplicatesMute))
  | .kick =>
    opts.kickEnabled && !(c.kickedUsers.contains aid) &&
      (decide (wc ≥ opts.kickThreshold) || decide (dc ≥ opts.maxDuplicatesKick))
  | .warn =>
    opts.warnEnabled && !(c.warnedUsers.contains aid) &&
      (decide (wc ≥ opts.warnThreshold) || decide (dc ≥ opts.maxDuplicatesWarn))

/-- Specification-side reference (spec §4.3): the first qualifying tier in the
fixed severity order ban, mute, kick, warn, or none. -/
def selectTier (opts : Options) (c : Cache) (aid : String) (wc dc : Nat) :
    Option Tier :=
  if tierQualifies opts c aid wc dc .ban then some .ban
  else if tierQualifies opts c aid wc dc .mute then some .mute
  else if tierQualifies opts c aid wc dc .kick then some .kick
  else if tierQualifies opts c aid wc dc .warn then some .warn
  else none

/-- The observer notification a successfully applied tier emits. -/
def tierEventOf (t : Tier) (ev : MessageEvent) : EmittedEvent :=
  match t with
  | .ban => EmittedEvent.banAdd ev.member.id ev.channelId ev.id
  | .mute => EmittedEvent.muteAdd ev.member.id ev.channelId ev.id
  | .kick => EmittedEvent.kickAdd ev.member.id ev.channelId ev.id
  | .warn => EmittedEvent.warnAdd ev.member.id ev.channelId ev.id

/-- Statement abbreviation: the cache right after an admitted event's record
has been appended (the state on which the tier cascade runs). -/
def postCache (c : Cache) (g : Guild) (ev : MessageEvent) : Cache :=
  { c with messages := c.messages ++ [currentRecordOf g ev] }

/-- Statement abbreviation: the author's cached messages in this guild after
the append (the `cachedMessages` of src/index.ts:1130-1132). -/
def authorCached (c : Cache) (g : Guild) (ev : MessageEvent) : List CachedMessage :=
  cachedFor (postCache c g ev).messages ev.author.id g.id

/-- Statement abbreviation: `spamMatches.length` for an admitted event. -/
def windowCount (opts : Options) (now : Nat) (c : Cache) (g : Guild)
    (ev : MessageEvent) : Nat :=
  (spamMatchesOf opts (authorCached c g ev) now).length

/-- Statement abbreviation: `duplicateMatches.length` for an admitted event. -/
def dupCount (opts : Options) (c : Cache) (g : Guild) (ev : MessageEvent) : Nat :=
  (dupMatchesOf opts (authorCached c g ev) ev.content ev.createdTimestamp).length

/-- The fields of a departing guild member read by `userleave`. -/
structure LeaveMember where
  guild : Guild
  userId : String
deriving DecidableEq, Repr

/-- Model of `AntiSpamClient.userleave` (src/index.ts:1260-1279): if the
member's guild is ignored, return `false` with no change; otherwise filter the
member out of the banned, kicked and warned lists (the message cache is left
untouched) and return `true`. -/
def userleave (opts : Options) (c : Cache) (m : LeaveMember) : Bool × Cache :=
  if isGuildIgnoredB opts m.guild then (false, c)
  else
    (true,
      { c with
        bannedUsers := c.bannedUsers.filter (fun u => u != m.userId)
        kickedUsers := c.kickedUsers.filter (fun u => u != m.userId)
        warnedUsers := c.warnedUsers.filter (fun u => u != m.userId) })

/-! ### Concrete fixtures used by counterexamples and witness instantiations -/

/-- A plain member of guild `g1`: no roles, no listed permissions, fully
sanctionable by the platform. -/
def plainMember : Member where
  id := "u1"
  roleIds := []
  permissions := []
  bannable := true
  kickable := true
  mutable := true

/-- A message event from author `u1` in guild `g1` (owner `owner1`, client
identity `bot0`). -/
def sampleEvent (i : String) (t : Nat) (content : String) : MessageEvent where
  id := i
  guild := some ⟨"g1", "owner1"⟩
  author := ⟨"u1", false⟩
  member := plainMember
  channelId := "ch1"
  content := content
  createdTimestamp := t
  clientUserId := "bot0"

/-- The default options with the `ipwarnEnabled` short-circuit disabled, so
that the tier cascade of src/index.ts:1178-1249 is reachable. -/
def ipwarnOptions : Options :=
  { defaultOptions with ipwarnEnabled := true }

/-- A cached record from `u1` in guild `g1`. -/
def sampleRecord (i : String) (t : Nat) (content : String) : CachedMessage where
  messageID := i
  guildID := "g1"
  authorID := "u1"
  channelID := "ch1"
  content := content
  sentTimestamp := t

/-- A cache holding previous-sanction state: `u1` is recorded banned and has
three fresh messages cached (used against claim C3). -/
def bannedCache : Cache :=
  { emptyCache with
    messages := [sampleRecord "c3a" 100 "x1", sampleRecord "c3b" 200 "x2",
      sampleRecord "c3c" 300 "x3"]
    bannedUsers := ["u1"] }

/-- A member the platform refuses to ban. -/
def deniedMember : Member := { plainMember with bannable := false }

/-- An event from the not-bannable member. -/
def deniedEvent : MessageEvent :=
  { sampleEvent "c6g" 700 "y7" with member := deniedMember }

/-- Six fresh cached messages from `u1`, one short of the ban threshold. -/
def sixMsgCache : Cache :=
  { emptyCache with
    messages := [sampleRecord "c6a" 100 "y1", sampleRecord "c6b" 200 "y2",
      sampleRecord "c6c" 300 "y3", sampleRecord "c6d" 400 "y4",
      sampleRecord "c6e" 500 "y5", sampleRecord "c6f" 600 "y6"] }

/-- Three fresh cached messages from `u1`, one short of the mute threshold. -/
def threeMsgCache : Cache :=
  { emptyCache with
    messages := [sampleRecord "c9a" 100 "z1", sampleRecord "c9b" 200 "z2",
      sampleRecord "c9c" 300 "z3"] }

/-- Two fresh cached messages from `u1`, one short of the warn threshold. -/
def twoMsgCache : Cache :=
  { emptyCache with
    messages := [sampleRecord "c4a" 400 "w1", sampleRecord "c4b" 1000 "w2"] }

/-- A cache with sanction-tracker entries for `u1` and `u2`. -/
def leaveCache : Cache :=
  { emptyCache with
    messages := [sampleRecord "c10a" 100 "v1"]
    warnedUsers := ["u1", "u2"]
    kickedUsers := ["u1"]
    bannedUsers := ["u2", "u1"] }

/-! ### Helper lemmas about the tier cascade -/

theorem bool_guard_split (a b c d : Bool) (h : (a && b && (c || d)) = false) :
    (a && b && c) = false ∧ (a && b && d) = false := by
  revert h; cases a <;> cases b <;> cases c <;> cases d <;> decide

theorem bool_guard_split2 (a c d : Bool) (h : (a && (c || d)) = false) :
    (a && c) = false ∧ (a && d) = false := by
  revert h; cases a <;> cases c <;> cases d <;> decide

theorem bool_guard_true (a b c d : Bool) (h : (a && b && (c || d)) = true) :
    a = true ∧ b = true ∧ (c = true ∨ d = true) := by
  revert h; cases a <;> cases b <;> cases c <;> cases d <;> decide

theorem bool_guard_true2 (a c d : Bool) (h : (a && (c || d)) = true) :
    a = true ∧ (c = true ∨ d = true) := by
  revert h; cases a <;> cases c <;> cases d <;> decide

theorem banStep_sanctioned (opts : Options) (ev : MessageEvent)
    (sm dm so : List CachedMessage) (c : Cache) :
    banStep opts ev sm dm so c true = (c, [], [], true) := by
  simp [banStep]

theorem muteStep_sanctioned (opts : Options) (ev : MessageEvent)
    (sm dm so : List CachedMessage) (c : Cache) :
    muteStep opts ev sm dm so c true = (c, [], [], true) := by
  simp [muteStep]

theorem kickStep_sanctioned (opts : Options) (ev : MessageEvent)
    (sm dm so : List CachedMessage) (c : Cache) :
    kickStep opts ev sm dm so c true = (c, [], [], true) := by
  simp [kickStep]

/-- The ban step is skipped when the author is already recorded banned. -/
theorem banStep_skip (opts : Options) (ev : MessageEvent)
    (sm dm so : List CachedMessage) (c : Cache) (s : Bool)
    (h : c.bannedUsers.contains ev.author.id = true) :
    banStep opts ev sm dm so c s = (c, [], [], s) := by
  simp at h
  simp [banStep, h]

/-- The mute step never touches the three sanction lists. -/
theorem muteStep_lists (opts : Options) (ev : MessageEvent)
    (sm dm so : List CachedMessage) (c : Cache) (s : Bool) :
    (muteStep opts ev sm dm so c s).1.warnedUsers = c.warnedUsers ∧
    (muteStep opts ev sm dm so c s).1.kickedUsers = c.kickedUsers ∧
    (muteStep opts ev sm dm so c s).1.bannedUsers = c.bannedUsers := by
  simp only [muteStep, muteUser]
  split_ifs <;> simp

/-- The kick step never touches `warnedUsers` or `bannedUsers`. -/
theorem kickStep_lists (opts : Options) (ev : MessageEvent)
    (sm dm so : List CachedMessage) (c : Cache) (s : Bool) :
    (kickStep opts ev sm dm so c s).1.warnedUsers = c.warnedUsers ∧
    (kickStep opts ev sm dm so c s).1.bannedUsers = c.bannedUsers := by
  simp only [kickStep, kickUser]
  split_ifs <;> simp

/-- The mute step never emits a `banAdd` notification. -/
theorem muteStep_no_banAdd (opts : Options) (ev : MessageEvent)
    (sm dm so : List CachedMessage) (c : Cache) (s : Bool)
    (a b d : String) :
    ¬(EmittedEvent.banAdd a b d ∈ (muteStep opts ev sm dm so c s).2.1) := by
  simp only [muteStep, muteUser]
  split_ifs <;> simp

/-- The kick step never emits a `banAdd` notification. -/
theorem kickStep_no_banAdd (opts : Options) (ev : MessageEvent)
    (sm dm so : List CachedMessage) (c : Cache) (s : Bool)
    (a b d : String) :
    ¬(EmittedEvent.banAdd a b d ∈ (kickStep opts ev sm dm so c s).2.1) := by
  simp only [kickStep, kickUser]
  split_ifs <;> simp

/-- When no tier qualifies, the cascade is a no-op that returns `false`. -/
theorem evalTiers_none (opts : Options) (ev : MessageEvent) (c1 : Cache)
    (sm dm so : List CachedMessage)
    (hb : tierQualifies opts c1 ev.author.id sm.length dm.length .ban = false)
    (hm : tierQualifies opts c1 ev.author.id sm.length dm.length .mute = false)
    (hk : tierQualifies opts c1 ev.author.id sm.length dm.length .kick = false)
    (hw : tierQualifies opts c1 ev.author.id sm.length dm.length .warn = false) :
    evalTiers opts ev c1 sm dm so =
      { triggered := false, cache := c1, emitted := [], deleted := [] } := by
  simp only [tierQualifies] at hb hm hk hw
  obtain ⟨hb1, hb2⟩ := bool_guard_split _ _ _ _ hb
  obtain ⟨hm1, hm2⟩ := bool_guard_split2 _ _ _ hm
  obtain ⟨hk1, hk2⟩ := bool_guard_split _ _ _ _ hk
  obtain ⟨hw1, hw2⟩ := bool_guard_split _ _ _ _ hw
  simp only [evalTiers, banStep, muteStep, kickStep, Bool.not_false, Bool.and_true, hb1, hb2, hm1, hm2,
    hk1, hk2, hw1, hw2, if_false, Bool.false_eq_true, ite_false]
  simp

/-- When the ban tier qualifies, the cascade applies exactly the ban sanction:
the author is purged from the message cache and pushed onto `bannedUsers`, a
`banAdd` notification is emitted exactly when the member is bannable, no other
list changes, and the handler reports `true`. -/
theorem evalTiers_ban (opts : Options) (ev : MessageEvent) (c1 : Cache)
    (sm dm so : List CachedMessage)
    (hq : tierQualifies opts c1 ev.author.id sm.length dm.length .ban = true) :
    (evalTiers opts ev c1 sm dm so).triggered = true ∧
    (evalTiers opts ev c1 sm dm so).emitted =
      (if ev.member.bannable then
        [EmittedEvent.banAdd ev.member.id ev.channelId ev.id] else []) ∧
    (evalTiers opts ev c1 sm dm so).cache.messages =
      c1.messages.filter (fun u => u.authorID != ev.author.id) ∧
    (evalTiers opts ev c1 sm dm so).cache.warnedUsers = c1.warnedUsers ∧
    (evalTiers opts ev c1 sm dm so).cache.kickedUsers = c1.kickedUsers ∧
    (evalTiers opts ev c1 sm dm so).cache.bannedUsers =
      c1.bannedUsers ++ [ev.author.id] := by
  simp only [tierQualifies] at hq
  obtain ⟨ha, hb, hcd⟩ := bool_guard_true _ _ _ _ hq
  cases hcount : decide (sm.length ≥ opts.banThreshold) with
  | true =>
    simp only [evalTiers, banStep, muteStep, kickStep, Bool.not_false, Bool.and_true, ha, hb, hcount,
      Bool.true_and, Bool.and_self, banUser]
    cases hB : ev.member.bannable <;> simp [hB]
  | false =>
    have hd : decide (dm.length ≥ opts.maxDuplicatesBan) = true :=
      hcd.resolve_left (by simp [hcount])
    simp only [evalTiers, banStep, muteStep, kickStep, Bool.not_false, Bool.and_true, ha, hb, hcount, hd,
      Bool.true_and, Bool.and_self, Bool.and_false, banUser]
    cases hB : ev.member.bannable <;> simp [hB]

/-- When the ban tier does not qualify and the mute tier does, the cascade
applies exactly the mute sanction: the author is purged from the message
cache, a `muteAdd` notification is emitted exactly when the member can be
timed out, no sanction list changes at all, and the handler reports `true`. -/
theorem evalTiers_mute (opts : Options) (ev : MessageEvent) (c1 : Cache)
    (sm dm so : List CachedMessage)
    (hqb : tierQualifies opts c1 ev.author.id sm.length dm.length .ban = false)
    (hq : tierQualifies opts c1 ev.author.id sm.length dm.length .mute = true) :
    (evalTiers opts ev c1 sm dm so).triggered = true ∧
    (evalTiers opts ev c1 sm dm so).emitted =
      (if ev.member.mutable then
        [EmittedEvent.muteAdd ev.member.id ev.channelId ev.id] else []) ∧
    (evalTiers opts ev c1 sm dm so).cache.messages =
      c1.messages.filter (fun u => u.authorID != ev.author.id) ∧
    (evalTiers opts ev c1 sm dm so).cache.warnedUsers = c1.warnedUsers ∧
    (evalTiers opts ev c1 sm dm so).cache.kickedUsers = c1.kickedUsers ∧
    (evalTiers opts ev c1 sm dm so).cache.bannedUsers = c1.bannedUsers := by
  simp only [tierQualifies] at hqb hq
  obtain ⟨hb1, hb2⟩ := bool_guard_split _ _ _ _ hqb
  obtain ⟨ha, hcd⟩ := bool_guard_true2 _ _ _ hq
  cases hcount : decide (sm.length ≥ opts.muteThreshold) with
  | true =>
    simp only [evalTiers, banStep, muteStep, kickStep, Bool.not_false, Bool.and_true, hb1, hb2, ha, hcount,
      Bool.true_and, Bool.and_self, muteUser]
    cases hB : ev.member.mutable <;> simp [hB]
  | false =>
    have hd : decide (dm.length ≥ opts.maxDuplicatesMute) = true :=
      hcd.resolve_left (by simp [hcount])
    simp only [evalTiers, banStep, muteStep, kickStep, Bool.not_false, Bool.and_true, hb1, hb2, ha, hcount,
      hd, Bool.true_and, Bool.and_self, Bool.and_false, muteUser]
    cases hB : ev.member.mutable <;> simp [hB]

/-- When neither ban nor mute qualifies and the kick tier does, the cascade
applies exactly the kick sanction. -/
theorem evalTiers_kick (opts : Options) (ev : MessageEvent) (c1 : Cache)
    (sm dm so : List CachedMessage)
    (hqb : tierQualifies opts c1 ev.author.id sm.length dm.length .ban = false)
    (hqm : tierQualifies opts c1 ev.author.id sm.length dm.length .mute = false)
    (hq : tierQualifies opts c1 ev.author.id sm.length dm.length .kick = true) :
    (evalTiers opts ev c1 sm dm so).triggered = true ∧
    (evalTiers opts ev c1 sm dm so).emitted =
      (if ev.member.kickable then
        [EmittedEvent.kickAdd ev.member.id ev.channelId ev.id] else []) ∧
    (evalTiers opts ev c1 sm dm so).cache.messages =
      c1.messages.filter (fun u => u.authorID != ev.author.id) ∧
    (evalTiers opts ev c1 sm dm so).cache.warnedUsers = c1.warnedUsers ∧
    (evalTiers opts ev c1 sm dm so).cache.kickedUsers =
      c1.kickedUsers ++ [ev.author.id] ∧
    (evalTiers opts ev c1 sm dm so).cache.bannedUsers = c1.bannedUsers := by
  simp only [tierQualifies] at hqb hqm hq
  obtain ⟨hb1, hb2⟩ := bool_guard_split _ _ _ _ hqb
  obtain ⟨hm1, hm2⟩ := bool_guard_split2 _ _ _ hqm
  obtain ⟨ha, hb, hcd⟩ := bool_guard_true _ _ _ _ hq
  cases hcount : decide (sm.length ≥ opts.kickThreshold) with
  | true =>
    simp only [evalTiers, banStep, muteStep, kickStep, Bool.not_false, Bool.and_true, hb1, hb2, hm1, hm2,
      ha, hb, hcount, Bool.true_and, Bool.and_self, Bool.false_eq_true,
      ite_false, eq_self_iff_true, ite_true, Bool.not_true, Bool.and_false,
      kickUser]
    cases hB : ev.member.kickable <;> simp [hB]
  | false =>
    have hd : decide (dm.length ≥ opts.maxDuplicatesKick) = true :=
      hcd.resolve_left (by simp [hcount])
    simp only [evalTiers, banStep, muteStep, kickStep, Bool.not_false, Bool.and_true, hb1, hb2, hm1, hm2,
      ha, hb, hcount, hd, Bool.true_and, Bool.and_self, Bool.false_eq_true,
      ite_false, eq_self_iff_true, ite_true, Bool.not_true, Bool.and_false,
      kickUser]
    cases hB : ev.member.kickable <;> simp [hB]

/-- When no higher tier qualifies and the warn tier does, the cascade applies
exactly the warn sanction: the author is pushed onto `warnedUsers`, a
`warnAdd` notification is emitted unconditionally (warn has no permission
check), the message cache is NOT purged, and the handler reports `true`. -/
theorem evalTiers_warn (opts : Options) (ev : MessageEvent) (c1 : Cache)
    (sm dm so : List CachedMessage)
    (hqb : tierQualifies opts c1 ev.author.id sm.length dm.length .ban = false)
    (hqm : tierQualifies opts c1 ev.author.id sm.length dm.length .mute = false)
    (hqk : tierQualifies opts c1 ev.author.id sm.length dm.length .kick = false)
    (hq : tierQualifies opts c1 ev.author.id sm.length dm.length .warn = true) :
    (evalTiers opts ev c1 sm dm so).triggered = true ∧
    (evalTiers opts ev c1 sm dm so).emitted =
      [EmittedEvent.warnAdd ev.member.id ev.channelId ev.id] ∧
    (evalTiers opts ev c1 sm dm so).cache =
      { c1 with warnedUsers := c1.warnedUsers ++ [ev.author.id] } := by
  simp only [tierQualifies] at hqb hqm hqk hq
  obtain ⟨hb1, hb2⟩ := bool_guard_split _ _ _ _ hqb
  obtain ⟨hm1, hm2⟩ := bool_guard_split2 _ _ _ hqm
  obtain ⟨hk1, hk2⟩ := bool_guard_split _ _ _ _ hqk
  obtain ⟨ha, hb, hcd⟩ := bool_guard_true _ _ _ _ hq
  cases hcount : decide (sm.length ≥ opts.warnThreshold) with
  | true =>
    simp only [evalTiers, banStep, muteStep, kickStep, Bool.not_false, Bool.and_true, hb1, hb2, hm1, hm2,
      hk1, hk2, ha, hb, hcount, Bool.true_and, Bool.and_self,
      Bool.false_eq_true, ite_false, eq_self_iff_true, ite_true,
      Bool.not_true, Bool.and_false, warnUser]
    simp
  | false =>
    have hd : decide (dm.length ≥ opts.maxDuplicatesWarn) = true :=
      hcd.resolve_left (by simp [hcount])
    simp only [evalTiers, banStep, muteStep, kickStep, Bool.not_false, Bool.and_true, hb1, hb2, hm1, hm2,
      hk1, hk2, ha, hb, hcount, hd, Bool.true_and, Bool.and_self,
      Bool.false_eq_true, ite_false, eq_self_iff_true, ite_true,
      Bool.not_true, Bool.and_false, warnUser]
    simp

/-- On an admitted event with the tier cascade reachable
(`ipwarnEnabled = true`), `message` is the cascade run on the appended cache
with the computed window and duplicate matches. -/
theorem message_eval (opts : Options) (now : Nat) (c : Cache) (ev : MessageEvent)
    (g : Guild) (hg : ev.guild = some g) (hadm : ignoredBy opts g ev = false)
    (hip : opts.ipwarnEnabled = true) :
    message opts now c ev =
      evalTiers opts ev (postCache c g ev)
        (spamMatchesOf opts (authorCached c g ev) now)
        (dupMatchesOf opts (authorCached c g ev) ev.content ev.createdTimestamp)
        (spamOtherDuplicatesOf (authorCached c g ev)
          (dupMatchesOf opts (authorCached c g ev) ev.content
            ev.createdTimestamp)) := by
  simp only [ignoredBy, Bool.or_eq_false_iff] at hadm
  obtain ⟨⟨⟨⟨⟨⟨⟨h1, h2⟩, h3⟩, h4⟩, h5⟩, h6⟩, h7⟩, h8⟩ := hadm
  simp only [message, hg, h1, h2, h3, h4, h5, h6, h7, h8, Bool.false_eq_true,
    ite_false]
  simp [processAdmitted, hip, postCache, authorCached, cachedFor,
    currentRecordOf]

/-- When the author is already recorded in `bannedUsers`, the ban tier of the
cascade is skipped: `bannedUsers` is not extended and no `banAdd` is emitted
(the lower tiers may still fire). -/
theorem evalTiers_bannedSkip (opts : Options) (ev : MessageEvent) (c1 : Cache)
    (sm dm so : List CachedMessage)
    (h : c1.bannedUsers.contains ev.author.id = true) :
    (evalTiers opts ev c1 sm dm so).cache.bannedUsers = c1.bannedUsers ∧
    ∀ a b d, EmittedEvent.banAdd a b d ∉ (evalTiers opts ev c1 sm dm so).emitted := by
  have hb := banStep_skip opts ev sm dm so c1 false h
  constructor
  · simp only [evalTiers, hb]
    split_ifs <;> simp [warnUser, muteStep_lists, kickStep_lists]
  · intro a b d
    simp only [evalTiers, hb]
    split_ifs <;> simp [warnUser, muteStep_no_banAdd, kickStep_no_banAdd]

/-! ### Helper lemmas about the duplicate-run walk -/

theorem collectStep_broken (ref : String) (l : List CachedMessage)
    (acc : List CachedMessage) :
    l.foldl (collectStep ref) (acc, true) = (acc, true) := by
  induction l with
  | nil => rfl
  | cons x xs ih => simpa [collectStep] using ih

theorem collectStep_run (ref : String) (l : List CachedMessage)
    (acc : List CachedMessage) :
    (l.foldl (collectStep ref) (acc, false)).1 =
      acc ++ l.takeWhile (fun m => m.content == ref) := by
  induction l generalizing acc with
  | nil => simp
  | cons x xs ih =>
    by_cases hx : x.content = ref
    · simp [collectStep, hx, ih]
    · simp [collectStep, hx, collectStep_broken]

/-- The `rowBroken` fold collects exactly the longest prefix of records whose
content equals the reference content. -/
theorem collectRun_eq_takeWhile (ref : String) (l : List CachedMessage) :
    collectRun ref l = l.takeWhile (fun m => m.content == ref) := by
  simpa [collectRun] using collectStep_run ref l []

/-! ### Claim theorems -/

/-- Claim C2: for every message event that passes the admission filter, if
`ipwarnEnabled` is false (its default value), `message` returns `false`
immediately after appending the message to the cache: the sanction lists are
untouched, no tier fires, and no `warnAdd`/`muteAdd`/`kickAdd`/`banAdd`
notification is emitted for the event. -/
theorem C2_theorem (opts : Options) (now : Nat) (c : Cache) (ev : MessageEvent)
    (g : Guild) (hg : ev.guild = some g) (hadm : ignoredBy opts g ev = false)
    (hip : opts.ipwarnEnabled = false) :
    defaultOptions.ipwarnEnabled = false ∧
    message opts now c ev =
      { triggered := false, cache := postCache c g ev, emitted := [],
        deleted := [] } := by
  refine ⟨rfl, ?_⟩
  simp only [ignoredBy, Bool.or_eq_false_iff] at hadm
  obtain ⟨⟨⟨⟨⟨⟨⟨h1, h2⟩, h3⟩, h4⟩, h5⟩, h6⟩, h7⟩, h8⟩ := hadm
  simp only [message, hg, h1, h2, h3, h4, h5, h6, h7, h8, Bool.false_eq_true,
    ite_false]
  simp [processAdmitted, hip, postCache, currentRecordOf]

/-- Witness for C2: a concrete admitted event under the default options is
cached but triggers nothing. -/
theorem C2_witness :
    defaultOptions.ipwarnEnabled = false ∧
    message defaultOptions 100 emptyCache (sampleEvent "c2a" 100 "hello") =
      { triggered := false
        cache := postCache emptyCache ⟨"g1", "owner1"⟩ (sampleEvent "c2a" 100 "hello")
        emitted := [], deleted := [] } :=
  C2_theorem defaultOptions 100 emptyCache (sampleEvent "c2a" 100 "hello")
    ⟨"g1", "owner1"⟩ rfl (by decide) rfl

/-- Claim C5: `spamOtherDuplicates` is empty when there are no duplicate
matches, and otherwise is exactly the contiguous run of records, from the most
recent backwards in the timestamp-descending ordering of the author's cached
messages, whose content equals the content of the first duplicate match —
stopping permanently at the first record whose content differs. -/
theorem C5_theorem (cachedMessages duplicateMatches : List CachedMessage) :
    spamOtherDuplicatesOf cachedMessages duplicateMatches =
      match duplicateMatches with
      | [] => []
      | d :: _ =>
        (sortByTimestampDesc cachedMessages).takeWhile
          (fun m => m.content == d.content) := by
  cases duplicateMatches with
  | nil => rfl
  | cons d rest => simp [spamOtherDuplicatesOf, collectRun_eq_takeWhile]

/-- Claim C7 (amended): the ban, mute and kick helpers always purge the
author's records from the message cache, regardless of `removeMessages`; the
warn helper never purges; `removeMessages` only gates which records are handed
to the external deletion call. -/
theorem C7_theorem (opts : Options) (ev : MessageEvent)
    (sm : List CachedMessage) (c : Cache) :
    (banUser opts ev sm c).cache.messages =
      c.messages.filter (fun u => u.authorID != ev.author.id) ∧
    (muteUser opts ev sm c).cache.messages =
      c.messages.filter (fun u => u.authorID != ev.author.id) ∧
    (kickUser opts ev sm c).cache.messages =
      c.messages.filter (fun u => u.authorID != ev.author.id) ∧
    (warnUser opts ev sm c).cache.messages = c.messages ∧
    (banUser opts ev sm c).deleted = (if opts.removeMessages then sm else []) ∧
    (muteUser opts ev sm c).deleted = (if opts.removeMessages then sm else []) ∧
    (kickUser opts ev sm c).deleted = (if opts.removeMessages then sm else []) ∧
    (warnUser opts ev sm c).deleted = (if opts.removeMessages then sm else []) := by
  cases hB : ev.member.bannable <;> cases hK : ev.member.kickable <;>
    cases hM : ev.member.mutable <;>
      simp [banUser, muteUser, kickUser, warnUser, hB, hK, hM]

/-- Counterexample to C7 as stated: under the default options
(`removeMessages = true`) a warn sanction is applied (a `warnAdd` notification
is emitted) and yet the author's records are NOT purged from the cache. -/
theorem C7_counterexample :
    ipwarnOptions.removeMessages = true ∧
    (message ipwarnOptions 1500
        (message ipwarnOptions 700
          (message ipwarnOptions 100 emptyCache
            (sampleEvent "c7a" 100 "pa")).cache
          (sampleEvent "c7b" 700 "pb")).cache
        (sampleEvent "c7c" 1500 "pc")).emitted =
      [EmittedEvent.warnAdd "u1" "ch1" "c7c"] ∧
    sampleRecord "c7a" 100 "pa" ∈
      (message ipwarnOptions 1500
        (message ipwarnOptions 700
          (message ipwarnOptions 100 emptyCache
            (sampleEvent "c7a" 100 "pa")).cache
          (sampleEvent "c7b" 700 "pb")).cache
        (sampleEvent "c7c" 1500 "pc")).cache.messages := by
  decide

/-- Claim C8: a sanction purge removes every cached record carrying the
author's id, across all guilds (the filter tests only `authorID`), and keeps
every other author's records — shown for the ban and kick helpers. -/
theorem C8_theorem (opts : Options) (ev : MessageEvent)
    (sm : List CachedMessage) (c : Cache) (m : CachedMessage) :
    ((banUser opts ev sm c).cache.messages =
      c.messages.filter (fun u => u.authorID != ev.author.id)) ∧
    (m ∈ (banUser opts ev sm c).cache.messages ↔
      m ∈ c.messages ∧ m.authorID ≠ ev.author.id) ∧
    (m ∈ (kickUser opts ev sm c).cache.messages ↔
      m ∈ c.messages ∧ m.authorID ≠ ev.author.id) := by
  cases hB : ev.member.bannable <;> cases hK : ev.member.kickable <;>
    simp [banUser, kickUser, hB, hK, List.mem_filter]

/-- Claim C10: `userleave` returns `false` with no state change when the
departing member's guild is ignored; otherwise it returns `true`, leaves the
message history unpurged, and removes exactly the member's entries from the
warned, kicked and banned lists. -/
theorem C10_theorem (opts : Options) (c : Cache) (m : LeaveMember) :
    (isGuildIgnoredB opts m.guild = true → userleave opts c m = (false, c)) ∧
    (isGuildIgnoredB opts m.guild = false →
      (userleave opts c m).1 = true ∧
      (userleave opts c m).2.messages = c.messages ∧
      (∀ u, u ∈ (userleave opts c m).2.warnedUsers ↔
        u ∈ c.warnedUsers ∧ u ≠ m.userId) ∧
      (∀ u, u ∈ (userleave opts c m).2.kickedUsers ↔
        u ∈ c.kickedUsers ∧ u ≠ m.userId) ∧
      (∀ u, u ∈ (userleave opts c m).2.bannedUsers ↔
        u ∈ c.bannedUsers ∧ u ≠ m.userId)) := by
  constructor
  · intro h; simp [userleave, h]
  · intro h; simp [userleave, h, List.mem_filter]

/-- Witness for C10: a concrete departure removes the member's tracker entries
and keeps the message history. -/
theorem C10_witness :
    (userleave defaultOptions leaveCache ⟨⟨"g1", "owner1"⟩, "u1"⟩).1 = true ∧
    "u1" ∉ (userleave defaultOptions leaveCache ⟨⟨"g1", "owner1"⟩, "u1"⟩).2.warnedUsers ∧
    (userleave defaultOptions leaveCache ⟨⟨"g1", "owner1"⟩, "u1"⟩).2.messages =
      leaveCache.messages := by
  have h := (C10_theorem defaultOptions leaveCache ⟨⟨"g1", "owner1"⟩, "u1"⟩).2
    (by decide)
  exact ⟨h.1, fun hu => ((h.2.2.1 "u1").mp hu).2 rfl, h.2.1⟩

/-- Claim C3 (amended): once an author is recorded in `bannedUsers`, the ban
tier itself is never evaluated or applied again for that author —
`bannedUsers` is not extended and no `banAdd` is ever emitted — but the lower
tiers (mute, kick, warn) are NOT blocked by the ban flag (see the
counterexample, where a recorded-banned author is muted). -/
theorem C3_theorem (opts : Options) (now : Nat) (c : Cache) (ev : MessageEvent)
    (h : c.bannedUsers.contains ev.author.id = true) :
    (message opts now c ev).cache.bannedUsers = c.bannedUsers ∧
    ∀ a b d, EmittedEvent.banAdd a b d ∉ (message opts now c ev).emitted := by
  cases hgev : ev.guild with
  | none => simp [message, hgev]
  | some g =>
    simp only [message, hgev]
    split_ifs with h1 h2 h3 h4 h5 h6 h7 h8
    · simp
    · simp
    · simp
    · simp
    · simp
    · simp
    · simp
    · simp
    · by_cases hip : opts.ipwarnEnabled = true
      · simp only [processAdmitted, hip, eq_self_iff_true, ite_true]
        exact evalTiers_bannedSkip _ _ _ _ _ _ h
      · simp [processAdmitted, hip]

/-- Counterexample to C3 as stated: a recorded-banned author who keeps
messaging is still evaluated for — and receives — a mute sanction. -/
theorem C3_counterexample :
    bannedCache.bannedUsers.contains "u1" = true ∧
    (message ipwarnOptions 400 bannedCache
        (sampleEvent "c3d" 400 "x4")).triggered = true ∧
    (message ipwarnOptions 400 bannedCache (sampleEvent "c3d" 400 "x4")).emitted =
      [EmittedEvent.muteAdd "u1" "ch1" "c3d"] := by
  decide

/-- Witness for C3: the amended theorem applied to the concrete banned-author
state. -/
theorem C3_witness :
    (message ipwarnOptions 400 bannedCache
        (sampleEvent "c3d" 400 "x4")).cache.bannedUsers = ["u1"] ∧
    ∀ a b d, EmittedEvent.banAdd a b d ∉
      (message ipwarnOptions 400 bannedCache (sampleEvent "c3d" 400 "x4")).emitted := by
  have h := C3_theorem ipwarnOptions 400 bannedCache (sampleEvent "c3d" 400 "x4")
    (by decide)
  exact ⟨h.1.trans rfl, h.2⟩

/-- Claim C6 (amended): when the selected tier is ban but the platform refuses
(the member is not bannable), the engine still records the sanction-tracker
state as attempted (the author is pushed onto `bannedUsers`), does not retry,
suppresses the `banAdd` notification — and the handler returns
`triggered = true`, not `false`. -/
theorem C6_theorem (opts : Options) (now : Nat) (c : Cache) (ev : MessageEvent)
    (g : Guild) (hg : ev.guild = some g) (hadm : ignoredBy opts g ev = false)
    (hip : opts.ipwarnEnabled = true) :
    (selectTier opts (postCache c g ev) ev.author.id
        (windowCount opts now c g ev) (dupCount opts c g ev) = some Tier.ban →
      ev.member.bannable = false →
      (message opts now c ev).triggered = true ∧
      (message opts now c ev).emitted = [] ∧
      (message opts now c ev).cache.bannedUsers =
        c.bannedUsers ++ [ev.author.id]) ∧
    (selectTier opts (postCache c g ev) ev.author.id
        (windowCount opts now c g ev) (dupCount opts c g ev) = some Tier.kick →
      ev.member.kickable = false →
      (message opts now c ev).triggered = true ∧
      (message opts now c ev).emitted = [] ∧
      (message opts now c ev).cache.kickedUsers =
        c.kickedUsers ++ [ev.author.id]) ∧
    (selectTier opts (postCache c g ev) ev.author.id
        (windowCount opts now c g ev) (dupCount opts c g ev) = some Tier.mute →
      ev.member.mutable = false →
      (message opts now c ev).triggered = true ∧
      (message opts now c ev).emitted = [] ∧
      (message opts now c ev).cache.kickedUsers = c.kickedUsers ∧
      (message opts now c ev).cache.bannedUsers = c.bannedUsers) := by
  rw [message_eval opts now c ev g hg hadm hip]
  refine ⟨?_, ?_, ?_⟩
  · intro hsel hnb
    simp only [selectTier] at hsel
    split_ifs at hsel with hq1 hq2 hq3 hq4 <;> try simp at hsel
    have h := evalTiers_ban opts ev (postCache c g ev)
      (spamMatchesOf opts (authorCached c g ev) now)
      (dupMatchesOf opts (authorCached c g ev) ev.content ev.createdTimestamp)
      (spamOtherDuplicatesOf (authorCached c g ev)
        (dupMatchesOf opts (authorCached c g ev) ev.content ev.createdTimestamp))
      (by simpa [windowCount, dupCount] using hq1)
    refine ⟨h.1, ?_, ?_⟩
    · rw [h.2.1, hnb]; simp
    · exact h.2.2.2.2.2.trans rfl
  · intro hsel hnk
    simp only [selectTier] at hsel
    split_ifs at hsel with hq1 hq2 hq3 hq4 <;> try simp at hsel
    have h := evalTiers_kick opts ev (postCache c g ev)
      (spamMatchesOf opts (authorCached c g ev) now)
      (dupMatchesOf opts (authorCached c g ev) ev.content ev.createdTimestamp)
      (spamOtherDuplicatesOf (authorCached c g ev)
        (dupMatchesOf opts (authorCached c g ev) ev.content ev.createdTimestamp))
      (by simpa [windowCount, dupCount] using hq1)
      (by simpa [windowCount, dupCount] using hq2)
      (by simpa [windowCount, dupCount] using hq3)
    refine ⟨h.1, ?_, ?_⟩
    · rw [h.2.1, hnk]; simp
    · exact h.2.2.2.2.1.trans rfl
  · intro hsel hnm
    simp only [selectTier] at hsel
    split_ifs at hsel with hq1 hq2 hq3 hq4 <;> try simp at hsel
    have h := evalTiers_mute opts ev (postCache c g ev)
      (spamMatchesOf opts (authorCached c g ev) now)
      (dupMatchesOf opts (authorCached c g ev) ev.content ev.createdTimestamp)
      (spamOtherDuplicatesOf (authorCached c g ev)
        (dupMatchesOf opts (authorCached c g ev) ev.content ev.createdTimestamp))
      (by simpa [windowCount, dupCount] using hq1)
      (by simpa [windowCount, dupCount] using hq2)
    refine ⟨h.1, ?_, h.2.2.2.2.1.trans rfl, h.2.2.2.2.2.trans rfl⟩
    rw [h.2.1, hnm]; simp

/-- Counterexample to C6 as stated: a denied ban still reports
`triggered = true` (the fire-and-forget helper's failure result is ignored by
the handler), where the claim says `triggered = false`. -/
theorem C6_counterexample :
    deniedEvent.member.bannable = false ∧
    (message ipwarnOptions 700 sixMsgCache deniedEvent).triggered = true := by
  decide

/-- Witness for C6: the concrete not-bannable member crossing the ban
threshold. -/
theorem C6_witness :
    (message ipwarnOptions 700 sixMsgCache deniedEvent).triggered = true ∧
    (message ipwarnOptions 700 sixMsgCache deniedEvent).emitted = [] ∧
    (message ipwarnOptions 700 sixMsgCache deniedEvent).cache.bannedUsers =
      sixMsgCache.bannedUsers ++ [deniedEvent.author.id] :=
  (C6_theorem ipwarnOptions 700 sixMsgCache deniedEvent ⟨"g1", "owner1"⟩ rfl
    (by decide) rfl).1 (by decide) rfl

/-- Claim C9: mute has no idempotence gate.  Whenever the selected tier is
mute (ban did not qualify, mute is enabled and crosses a threshold), the mute
sanction is applied — with no hypothesis whatsoever about the author's mute
history, because the cache records no muted-users state — and none of the
three recorded sanction lists changes. -/
theorem C9_theorem (opts : Options) (now : Nat) (c : Cache) (ev : MessageEvent)
    (g : Guild) (hg : ev.guild = some g) (hadm : ignoredBy opts g ev = false)
    (hip : opts.ipwarnEnabled = true)
    (hsel : selectTier opts (postCache c g ev) ev.author.id
        (windowCount opts now c g ev) (dupCount opts c g ev) = some Tier.mute)
    (hm : ev.member.mutable = true) :
    (message opts now c ev).triggered = true ∧
    (message opts now c ev).emitted =
      [EmittedEvent.muteAdd ev.member.id ev.channelId ev.id] ∧
    (message opts now c ev).cache.warnedUsers = c.warnedUsers ∧
    (message opts now c ev).cache.kickedUsers = c.kickedUsers ∧
    (message opts now c ev).cache.bannedUsers = c.bannedUsers := by
  simp only [selectTier] at hsel
  split_ifs at hsel with hq1 hq2 hq3 hq4 <;> try simp at hsel
  rw [message_eval opts now c ev g hg hadm hip]
  have h := evalTiers_mute opts ev (postCache c g ev)
    (spamMatchesOf opts (authorCached c g ev) now)
    (dupMatchesOf opts (authorCached c g ev) ev.content ev.createdTimestamp)
    (spamOtherDuplicatesOf (authorCached c g ev)
      (dupMatchesOf opts (authorCached c g ev) ev.content ev.createdTimestamp))
    (by simpa [windowCount, dupCount] using hq1)
    (by simpa [windowCount, dupCount] using hq2)
  refine ⟨h.1, ?_, h.2.2.2.1.trans rfl, h.2.2.2.2.1.trans rfl,
    h.2.2.2.2.2.trans rfl⟩
  rw [h.2.1, hm]; simp

/-- Witness for C9: a concrete author crossing the mute threshold is muted and
no sanction list is touched. -/
theorem C9_witness :
    (message ipwarnOptions 400 threeMsgCache
        (sampleEvent "c9d" 400 "z4")).triggered = true ∧
    (message ipwarnOptions 400 threeMsgCache (sampleEvent "c9d" 400 "z4")).emitted =
      [EmittedEvent.muteAdd "u1" "ch1" "c9d"] ∧
    (message ipwarnOptions 400 threeMsgCache
        (sampleEvent "c9d" 400 "z4")).cache.warnedUsers =
      threeMsgCache.warnedUsers ∧
    (message ipwarnOptions 400 threeMsgCache
        (sampleEvent "c9d" 400 "z4")).cache.kickedUsers =
      threeMsgCache.kickedUsers ∧
    (message ipwarnOptions 400 threeMsgCache
        (sampleEvent "c9d" 400 "z4")).cache.bannedUsers =
      threeMsgCache.bannedUsers :=
  C9_theorem ipwarnOptions 400 threeMsgCache (sampleEvent "c9d" 400 "z4")
    ⟨"g1", "owner1"⟩ rfl (by decide) rfl (by decide) rfl

/-- Claim C4 (amended): provided the tier cascade is reached
(`ipwarnEnabled = true`) and the platform permits every sanction, an admitted
event behaves exactly as "first qualifying tier in the fixed order ban, mute,
kick, warn fires": if no tier qualifies the handler is a no-op returning
`false`, and if the first qualifying tier is `t` the handler returns `true`
and emits exactly the one notification of `t` — ineligible tiers are skipped
with evaluation continuing below, and at most one tier fires. -/
theorem C4_theorem (opts : Options) (now : Nat) (c : Cache) (ev : MessageEvent)
    (g : Guild) (hg : ev.guild = some g) (hadm : ignoredBy opts g ev = false)
    (hip : opts.ipwarnEnabled = true)
    (hB : ev.member.bannable = true) (hK : ev.member.kickable = true)
    (hM : ev.member.mutable = true) :
    (selectTier opts (postCache c g ev) ev.author.id
        (windowCount opts now c g ev) (dupCount opts c g ev) = none →
      message opts now c ev =
        { triggered := false, cache := postCache c g ev, emitted := [],
          deleted := [] }) ∧
    ∀ t, selectTier opts (postCache c g ev) ev.author.id
        (windowCount opts now c g ev) (dupCount opts c g ev) = some t →
      (message opts now c ev).triggered = true ∧
      (message opts now c ev).emitted = [tierEventOf t ev] := by
  rw [message_eval opts now c ev g hg hadm hip]
  by_cases hq1 : tierQualifies opts (postCache c g ev) ev.author.id
      (windowCount opts now c g ev) (dupCount opts c g ev) Tier.ban = true
  · have h := evalTiers_ban opts ev (postCache c g ev)
      (spamMatchesOf opts (authorCached c g ev) now)
      (dupMatchesOf opts (authorCached c g ev) ev.content ev.createdTimestamp)
      (spamOtherDuplicatesOf (authorCached c g ev)
        (dupMatchesOf opts (authorCached c g ev) ev.content ev.createdTimestamp))
      (by simpa [windowCount, dupCount] using hq1)
    constructor
    · intro hnone; simp [selectTier, hq1] at hnone
    · intro t ht
      simp only [selectTier, hq1, ite_true] at ht
      obtain rfl : Tier.ban = t := by simpa using ht
      exact ⟨h.1, by rw [h.2.1, hB]; simp [tierEventOf]⟩
  · by_cases hq2 : tierQualifies opts (postCache c g ev) ev.author.id
        (windowCount opts now c g ev) (dupCount opts c g ev) Tier.mute = true
    · have h := evalTiers_mute opts ev (postCache c g ev)
        (spamMatchesOf opts (authorCached c g ev) now)
        (dupMatchesOf opts (authorCached c g ev) ev.content ev.createdTimestamp)
        (spamOtherDuplicatesOf (authorCached c g ev)
          (dupMatchesOf opts (authorCached c g ev) ev.content ev.createdTimestamp))
        (by simpa [windowCount, dupCount] using hq1)
        (by simpa [windowCount, dupCount] using hq2)
      constructor
      · intro hnone; simp [selectTier, hq1, hq2] at hnone
      · intro t ht
        simp only [selectTier, hq1, hq2, ite_true, ite_false] at ht
        obtain rfl : Tier.mute = t := by simpa using ht
        exact ⟨h.1, by rw [h.2.1, hM]; simp [tierEventOf]⟩
    · by_cases hq3 : tierQualifies opts (postCache c g ev) ev.author.id
          (windowCount opts now c g ev) (dupCount opts c g ev) Tier.kick = true
      · have h := evalTiers_kick opts ev (postCache c g ev)
          (spamMatchesOf opts (authorCached c g ev) now)
          (dupMatchesOf opts (authorCached c g ev) ev.content ev.createdTimestamp)
          (spamOtherDuplicatesOf (authorCached c g ev)
            (dupMatchesOf opts (authorCached c g ev) ev.content ev.createdTimestamp))
          (by simpa [windowCount, dupCount] using hq1)
          (by simpa [windowCount, dupCount] using hq2)
          (by simpa [windowCount, dupCount] using hq3)
        constructor
        · intro hnone; simp [selectTier, hq1, hq2, hq3] at hnone
        · intro t ht
          simp only [selectTier, hq1, hq2, hq3, ite_true, ite_false] at ht
          obtain rfl : Tier.kick = t := by simpa using ht
          exact ⟨h.1, by rw [h.2.1, hK]; simp [tierEventOf]⟩
      · by_cases hq4 : tierQualifies opts (postCache c g ev) ev.author.id
            (windowCount opts now c g ev) (dupCount opts c g ev) Tier.warn = true
        · have h := evalTiers_warn opts ev (postCache c g ev)
            (spamMatchesOf opts (authorCached c g ev) now)
            (dupMatchesOf opts (authorCached c g ev) ev.content ev.createdTimestamp)
            (spamOtherDuplicatesOf (authorCached c g ev)
              (dupMatchesOf opts (authorCached c g ev) ev.content ev.createdTimestamp))
            (by simpa [windowCount, dupCount] using hq1)
            (by simpa [windowCount, dupCount] using hq2)
            (by simpa [windowCount, dupCount] using hq3)
            (by simpa [windowCount, dupCount] using hq4)
          constructor
          · intro hnone; simp [selectTier, hq1, hq2, hq3, hq4] at hnone
          · intro t ht
            simp only [selectTier, hq1, hq2, hq3, hq4, ite_true, ite_false] at ht
            obtain rfl : Tier.warn = t := by simpa using ht
            exact ⟨h.1, by rw [h.2.1]; simp [tierEventOf]⟩
        · have h := evalTiers_none opts ev (postCache c g ev)
            (spamMatchesOf opts (authorCached c g ev) now)
            (dupMatchesOf opts (authorCached c g ev) ev.content ev.createdTimestamp)
            (spamOtherDuplicatesOf (authorCached c g ev)
              (dupMatchesOf opts (authorCached c g ev) ev.content ev.createdTimestamp))
            (by simpa [windowCount, dupCount] using hq1)
            (by simpa [windowCount, dupCount] using hq2)
            (by simpa [windowCount, dupCount] using hq3)
            (by simpa [windowCount, dupCount] using hq4)
          constructor
          · intro _; exact h
          · intro t ht; simp [selectTier, hq1, hq2, hq3, hq4] at ht

/-- Counterexample to C4 as stated: under the default options an admitted
event for which the warn tier qualifies (per the spec's eligibility and
threshold rule) fires nothing at all — the handler returns `false` before any
tier is checked. -/
theorem C4_counterexample :
    selectTier defaultOptions
        (postCache twoMsgCache ⟨"g1", "owner1"⟩ (sampleEvent "c4x" 1500 "w3"))
        "u1"
        (windowCount defaultOptions 1500 twoMsgCache ⟨"g1", "owner1"⟩
          (sampleEvent "c4x" 1500 "w3"))
        (dupCount defaultOptions twoMsgCache ⟨"g1", "owner1"⟩
          (sampleEvent "c4x" 1500 "w3")) = some Tier.warn ∧
    (message defaultOptions 1500 twoMsgCache
        (sampleEvent "c4x" 1500 "w3")).triggered = false ∧
    (message defaultOptions 1500 twoMsgCache
        (sampleEvent "c4x" 1500 "w3")).emitted = [] := by
  decide

/-- Witness for C4: a concrete admitted event whose selected tier is warn
fires exactly that one tier. -/
theorem C4_witness :
    (message ipwarnOptions 1500 twoMsgCache
        (sampleEvent "c4c" 1500 "w3")).triggered = true ∧
    (message ipwarnOptions 1500 twoMsgCache (sampleEvent "c4c" 1500 "w3")).emitted =
      [tierEventOf Tier.warn (sampleEvent "c4c" 1500 "w3")] :=
  (C4_theorem ipwarnOptions 1500 twoMsgCache (sampleEvent "c4c" 1500 "w3")
    ⟨"g1", "owner1"⟩ rfl (by decide) rfl rfl rfl rfl).2 Tier.warn (by decide)

/-- Below the warn thresholds (the smallest ones of the default
configuration), no tier qualifies. -/
theorem ipwarnOptions_noTier (c : Cache) (aid : String) (wc dc : Nat)
    (hwc : wc < 3) (hdc : dc < 7) (t : Tier) :
    tierQualifies ipwarnOptions c aid wc dc t = false := by
  have d1 : ¬(3 ≤ wc) := by omega
  have d2 : ¬(4 ≤ wc) := by omega
  have d3 : ¬(5 ≤ wc) := by omega
  have d4 : ¬(7 ≤ wc) := by omega
  have d5 : ¬(7 ≤ dc) := by omega
  have d6 : ¬(9 ≤ dc) := by omega
  have d7 : ¬(10 ≤ dc) := by omega
  have d8 : ¬(11 ≤ dc) := by omega
  cases t <;>
    simp [tierQualifies, ipwarnOptions, defaultOptions, d1, d2, d3, d4, d5,
      d6, d7, d8]

/-- Claim C1 (amended): with `warnThreshold = 3` and `maxInterval = 2000 ms`
(the defaults) and additionally `ipwarnEnabled = true` — without which the
handler returns before any tier is evaluated, see the counterexample — every
author who passes the admission filter and, starting from an empty cache,
sends three messages within 1500 ms in the same guild gets exactly one warn:
the first two calls return `false` and emit nothing, the third returns `true`,
emits a single `warnAdd`, and records the author in `warnedUsers`, making the
warn tier thereafter ineligible. -/
theorem C1_theorem (g : Guild) (e1 e2 e3 : MessageEvent)
    (hg1 : e1.guild = some g) (hg2 : e2.guild = some g) (hg3 : e3.guild = some g)
    (ha2 : e2.author.id = e1.author.id) (ha3 : e3.author.id = e1.author.id)
    (hadm1 : ignoredBy ipwarnOptions g e1 = false)
    (hadm2 : ignoredBy ipwarnOptions g e2 = false)
    (hadm3 : ignoredBy ipwarnOptions g e3 = false)
    (ht12 : e1.createdTimestamp ≤ e2.createdTimestamp)
    (ht23 : e2.createdTimestamp ≤ e3.createdTimestamp)
    (hspan : e3.createdTimestamp ≤ e1.createdTimestamp + 1500) :
    (message ipwarnOptions e1.createdTimestamp emptyCache e1).triggered = false ∧
    (message ipwarnOptions e1.createdTimestamp emptyCache e1).emitted = [] ∧
    (message ipwarnOptions e2.createdTimestamp
        (message ipwarnOptions e1.createdTimestamp emptyCache e1).cache
        e2).triggered = false ∧
    (message ipwarnOptions e2.createdTimestamp
        (message ipwarnOptions e1.createdTimestamp emptyCache e1).cache
        e2).emitted = [] ∧
    (message ipwarnOptions e3.createdTimestamp
        (message ipwarnOptions e2.createdTimestamp
          (message ipwarnOptions e1.createdTimestamp emptyCache e1).cache
          e2).cache
        e3).triggered = true ∧
    (message ipwarnOptions e3.createdTimestamp
        (message ipwarnOptions e2.createdTimestamp
          (message ipwarnOptions e1.createdTimestamp emptyCache e1).cache
          e2).cache
        e3).emitted = [EmittedEvent.warnAdd e3.member.id e3.channelId e3.id] ∧
    (message ipwarnOptions e3.createdTimestamp
        (message ipwarnOptions e2.createdTimestamp
          (message ipwarnOptions e1.createdTimestamp emptyCache e1).cache
          e2).cache
        e3).cache.warnedUsers = [e3.author.id] := by
  -- First call: one cached message, far below every threshold.
  have hl1 : (authorCached emptyCache g e1).length = 1 := by
    simp [authorCached, postCache, cachedFor, emptyCache, currentRecordOf]
  have hwc1 : (spamMatchesOf ipwarnOptions (authorCached emptyCache g e1)
      e1.createdTimestamp).length ≤ 1 :=
    le_trans (List.length_filter_le _ _) (le_of_eq hl1)
  have hdc1 : (dupMatchesOf ipwarnOptions (authorCached emptyCache g e1)
      e1.content e1.createdTimestamp).length ≤ 1 :=
    le_trans (List.length_filter_le _ _) (le_of_eq hl1)
  have hr1 : message ipwarnOptions e1.createdTimestamp emptyCache e1 =
      { triggered := false, cache := postCache emptyCache g e1, emitted := [],
        deleted := [] } := by
    rw [message_eval ipwarnOptions e1.createdTimestamp emptyCache e1 g hg1
      hadm1 rfl]
    refine evalTiers_none _ _ _ _ _ _ ?_ ?_ ?_ ?_ <;>
      exact ipwarnOptions_noTier _ _ _ _ (by omega) (by omega) _
  -- Second call: at most two cached messages, still below every threshold.
  have hl2 : (authorCached (postCache emptyCache g e1) g e2).length ≤ 2 := by
    refine (List.length_filter_le _ _).trans ?_
    simp [postCache, emptyCache]
  have hwc2 : (spamMatchesOf ipwarnOptions
      (authorCached (postCache emptyCache g e1) g e2)
      e2.createdTimestamp).length ≤ 2 :=
    le_trans (List.length_filter_le _ _) hl2
  have hdc2 : (dupMatchesOf ipwarnOptions
      (authorCached (postCache emptyCache g e1) g e2) e2.content
      e2.createdTimestamp).length ≤ 2 :=
    le_trans (List.length_filter_le _ _) hl2
  have hr2 : message ipwarnOptions e2.createdTimestamp
      (postCache emptyCache g e1) e2 =
      { triggered := false
        cache := postCache (postCache emptyCache g e1) g e2, emitted := []
        deleted := [] } := by
    rw [message_eval ipwarnOptions e2.createdTimestamp
      (postCache emptyCache g e1) e2 g hg2 hadm2 rfl]
    refine evalTiers_none _ _ _ _ _ _ ?_ ?_ ?_ ?_ <;>
      exact ipwarnOptions_noTier _ _ _ _ (by omega) (by omega) _
  -- Third call: exactly three messages inside the 2000 ms window.
  have hac3 : authorCached (postCache (postCache emptyCache g e1) g e2) g e3 =
      [currentRecordOf g e1, currentRecordOf g e2, currentRecordOf g e3] := by
    simp [authorCached, postCache, cachedFor, emptyCache, currentRecordOf,
      ha2, ha3]
  have w1 : e3.createdTimestamp < e1.createdTimestamp + 2000 := by omega
  have w2 : e3.createdTimestamp < e2.createdTimestamp + 2000 := by omega
  have w3 : e3.createdTimestamp < e3.createdTimestamp + 2000 := by omega
  have hsm3 : spamMatchesOf ipwarnOptions
      (authorCached (postCache (postCache emptyCache g e1) g e2) g e3)
      e3.createdTimestamp =
      [currentRecordOf g e1, currentRecordOf g e2, currentRecordOf g e3] := by
    rw [hac3]
    simp [spamMatchesOf, ipwarnOptions, defaultOptions, currentRecordOf, w1,
      w2, w3]
  have hdc3 : (dupMatchesOf ipwarnOptions
      (authorCached (postCache (postCache emptyCache g e1) g e2) g e3)
      e3.content e3.createdTimestamp).length ≤ 3 := by
    refine (List.length_filter_le _ _).trans ?_
    rw [hac3]
    simp
  have hwu3 : (postCache (postCache (postCache emptyCache g e1) g e2) g
      e3).warnedUsers = [] := by
    simp [postCache, emptyCache]
  have hqw3 : tierQualifies ipwarnOptions
      (postCache (postCache (postCache emptyCache g e1) g e2) g e3)
      e3.author.id
      (spamMatchesOf ipwarnOptions
        (authorCached (postCache (postCache emptyCache g e1) g e2) g e3)
        e3.createdTimestamp).length
      (dupMatchesOf ipwarnOptions
        (authorCached (postCache (postCache emptyCache g e1) g e2) g e3)
        e3.content e3.createdTimestamp).length Tier.warn = true := by
    rw [hsm3]
    simp [tierQualifies, ipwarnOptions, defaultOptions, hwu3]
  have hqhi3 : ∀ t, t ≠ Tier.warn → tierQualifies ipwarnOptions
      (postCache (postCache (postCache emptyCache g e1) g e2) g e3)
      e3.author.id
      (spamMatchesOf ipwarnOptions
        (authorCached (postCache (postCache emptyCache g e1) g e2) g e3)
        e3.createdTimestamp).length
      (dupMatchesOf ipwarnOptions
        (authorCached (postCache (postCache emptyCache g e1) g e2) g e3)
        e3.content e3.createdTimestamp).length t = false := by
    intro t ht
    rw [hsm3]
    set x := (dupMatchesOf ipwarnOptions
      (authorCached (postCache (postCache emptyCache g e1) g e2) g e3)
      e3.content e3.createdTimestamp).length with hx
    cases t with
    | warn => exact absurd rfl ht
    | ban =>
      simp [tierQualifies, ipwarnOptions, defaultOptions, postCache,
        emptyCache]
      omega
    | mute =>
      simp [tierQualifies, ipwarnOptions, defaultOptions]
      omega
    | kick =>
      simp [tierQualifies, ipwarnOptions, defaultOptions, postCache,
        emptyCache]
      omega
  have h3 := evalTiers_warn ipwarnOptions e3
    (postCache (postCache (postCache emptyCache g e1) g e2) g e3)
    (spamMatchesOf ipwarnOptions
      (authorCached (postCache (postCache emptyCache g e1) g e2) g e3)
      e3.createdTimestamp)
    (dupMatchesOf ipwarnOptions
      (authorCached (postCache (postCache emptyCache g e1) g e2) g e3)
      e3.content e3.createdTimestamp)
    (spamOtherDuplicatesOf
      (authorCached (postCache (postCache emptyCache g e1) g e2) g e3)
      (dupMatchesOf ipwarnOptions
        (authorCached (postCache (postCache emptyCache g e1) g e2) g e3)
        e3.content e3.createdTimestamp))
    (hqhi3 Tier.ban (by simp)) (hqhi3 Tier.mute (by simp))
    (hqhi3 Tier.kick (by simp)) hqw3
  have hr3 : (message ipwarnOptions e3.createdTimestamp
      (postCache (postCache emptyCache g e1) g e2) e3).triggered = true ∧
      (message ipwarnOptions e3.createdTimestamp
        (postCache (postCache emptyCache g e1) g e2) e3).emitted =
        [EmittedEvent.warnAdd e3.member.id e3.channelId e3.id] ∧
      (message ipwarnOptions e3.createdTimestamp
        (postCache (postCache emptyCache g e1) g e2) e3).cache.warnedUsers =
        [e3.author.id] := by
    rw [message_eval ipwarnOptions e3.createdTimestamp
      (postCache (postCache emptyCache g e1) g e2) e3 g hg3 hadm3 rfl]
    exact ⟨h3.1, h3.2.1, by rw [h3.2.2]; simp [hwu3]⟩
  refine ⟨by simp only [hr1], by simp only [hr1], by simp only [hr1, hr2],
    by simp only [hr1, hr2], ?_, ?_, ?_⟩
  · have := hr3.1; simpa only [hr1, hr2] using this
  · have := hr3.2.1; simpa only [hr1, hr2] using this
  · have := hr3.2.2; simpa only [hr1, hr2] using this

/-- Counterexample to C1 as stated: under the pure default options
(`ipwarnEnabled = false`) the very same three-messages-in-1500ms scenario
returns `false` on the third message, emits nothing, and records no warn. -/
theorem C1_counterexample :
    (message defaultOptions 1500
        (message defaultOptions 700
          (message defaultOptions 100 emptyCache
            (sampleEvent "c1a" 100 "qa")).cache
          (sampleEvent "c1b" 700 "qb")).cache
        (sampleEvent "c1c" 1500 "qc")).triggered = false ∧
    (message defaultOptions 1500
        (message defaultOptions 700
          (message defaultOptions 100 emptyCache
            (sampleEvent "c1a" 100 "qa")).cache
          (sampleEvent "c1b" 700 "qb")).cache
        (sampleEvent "c1c" 1500 "qc")).emitted = [] ∧
    (message defaultOptions 1500
        (message defaultOptions 700
          (message defaultOptions 100 emptyCache
            (sampleEvent "c1a" 100 "qa")).cache
          (sampleEvent "c1b" 700 "qb")).cache
        (sampleEvent "c1c" 1500 "qc")).cache.warnedUsers = [] := by
  decide

/-- Witness for C1: the amended scenario run on concrete events. -/
theorem C1_witness :
    (message ipwarnOptions 100 emptyCache (sampleEvent "c1d" 100 "qa")).triggered
      = false ∧
    (message ipwarnOptions 100 emptyCache (sampleEvent "c1d" 100 "qa")).emitted
      = [] ∧
    (message ipwarnOptions 700
        (message ipwarnOptions 100 emptyCache (sampleEvent "c1d" 100 "qa")).cache
        (sampleEvent "c1e" 700 "qb")).triggered = false ∧
    (message ipwarnOptions 700
        (message ipwarnOptions 100 emptyCache (sampleEvent "c1d" 100 "qa")).cache
        (sampleEvent "c1e" 700 "qb")).emitted = [] ∧
    (message ipwarnOptions 1500
        (message ipwarnOptions 700
          (message ipwarnOptions 100 emptyCache
            (sampleEvent "c1d" 100 "qa")).cache
          (sampleEvent "c1e" 700 "qb")).cache
        (sampleEvent "c1f" 1500 "qc")).triggered = true ∧
    (message ipwarnOptions 1500
        (message ipwarnOptions 700
          (message ipwarnOptions 100 emptyCache
            (sampleEvent "c1d" 100 "qa")).cache
          (sampleEvent "c1e" 700 "qb")).cache
        (sampleEvent "c1f" 1500 "qc")).emitted =
      [EmittedEvent.warnAdd "u1" "ch1" "c1f"] ∧
    (message ipwarnOptions 1500
        (message ipwarnOptions 700
          (message ipwarnOptions 100 emptyCache
            (sampleEvent "c1d" 100 "qa")).cache
          (sampleEvent "c1e" 700 "qb")).cache
        (sampleEvent "c1f" 1500 "qc")).cache.warnedUsers = ["u1"] :=
  C1_theorem ⟨"g1", "owner1"⟩ (sampleEvent "c1d" 100 "qa")
    (sampleEvent "c1e" 700 "qb") (sampleEvent "c1f" 1500 "qc") rfl rfl rfl rfl
    rfl (by decide) (by decide) (by decide) (by decide) (by decide) (by decide)

end AntiSpam
